import Mathlib

/-!
Shallow embedding of the AI request broker implemented in
`src/backend/ai_engine.py` and `src/backend/api.py`: persona lookup, prompt
composition, the generation router with its fallback chain, the local-backend
output cleaning, and the response envelopes of the API layer.

External effects (the HTTP calls of the remote backends and the llama.cpp
subprocess) are modelled by explicit outcome values carried in a `World`
record; the control flow around them is translated directly from the Python
source.  Python strings are modelled as Lean `String` (ASCII suffices for
every literal of this program).
-/

namespace CodeEditor

/-- Characters removed by Python `str.strip()` (Python string whitespace). -/
def is_py_space (c : Char) : Bool :=
  c = ' ' || c = '\t' || c = '\n' || c = '\r' || c = '\x0b' || c = '\x0c'

/-- Python `s.strip()`: remove leading and trailing whitespace. -/
def pyStrip (s : String) : String :=
  String.mk (((s.data.dropWhile is_py_space).reverse.dropWhile is_py_space).reverse)

/-- Python `s.split('\n')` on the underlying character list: separator-split
keeping empty pieces; the empty string yields one empty piece. -/
def split_lines_list : List Char → List String
  | [] => [""]
  | c :: rest =>
    if c = '\n' then "" :: split_lines_list rest
    else
      match split_lines_list rest with
      | [] => [String.mk [c]]
      | s :: ss => String.mk (c :: s.data) :: ss

/-- Python `s.split('\n')`. -/
def split_lines (s : String) : List String :=
  split_lines_list s.data

/-- List-level `startswith`: does the first list begin with the second one. -/
def starts_with_list : List Char → List Char → Bool
  | _, [] => true
  | [], _ :: _ => false
  | a :: as, b :: bs => a = b && starts_with_list as bs

/-- Python `s.startswith(pat)`. -/
def py_starts_with (s pat : String) : Bool :=
  starts_with_list s.data pat.data

/-- Python `needle in hay` (substring containment). -/
def str_contains (hay needle : String) : Bool :=
  (List.range (hay.data.length + 1)).any fun i =>
    starts_with_list (hay.data.drop i) needle.data

/-- Python `s.lower()` (ASCII case folding, which covers this program). -/
def py_lower (s : String) : String :=
  String.mk (s.data.map Char.toLower)

/-- Python truthiness of an optional string (`None` and `""` are falsy), as
used by `if self.openai_api_key:` style tests in the source. -/
def py_truthy : Option String → Bool
  | none => false
  | some s => !(s == "")

/-- Entry of the `self.personas` dictionary of `AIEngine.__init__`
(ai_engine.py lines 29-42). -/
structure PersonaConfig where
  system_prompt : String
  style : String
deriving Repr, DecidableEq

/-- The `teacher` persona of `AIEngine.__init__`. -/
def teacher_persona : PersonaConfig :=
  { system_prompt := "You are a patient, educational programming teacher. Explain concepts clearly with examples and encourage learning. Use simple language and provide step-by-step explanations."
    style := "educational" }

/-- The `hacker` persona of `AIEngine.__init__`. -/
def hacker_persona : PersonaConfig :=
  { system_prompt := "You are a skilled, efficient hacker-style programmer. Give concise, advanced solutions. Focus on performance, clever tricks, and cutting-edge techniques. Be direct and technical."
    style := "advanced" }

/-- The `reviewer` persona of `AIEngine.__init__`. -/
def reviewer_persona : PersonaConfig :=
  { system_prompt := "You are a thorough code reviewer. Analyze code quality, suggest improvements, point out potential issues, and recommend best practices. Be constructive and detailed."
    style := "analytical" }

/-- The `self.personas` dictionary as a lookup function. -/
def personas (id : String) : Option PersonaConfig :=
  if id == "teacher" then some teacher_persona
  else if id == "hacker" then some hacker_persona
  else if id == "reviewer" then some reviewer_persona
  else none

/-- Python `self.personas.get(id, deflt)`: dictionary lookup with a default,
as performed at the head of each prompt-composing method. -/
def persona_lookup (id : String) (deflt : PersonaConfig) : PersonaConfig :=
  (personas id).getD deflt

/-- Prompt built by `AIEngine.explain_code` (ai_engine.py lines 114-128);
note the per-method default profile passed to the dictionary lookup is
`teacher` here. -/
def explain_prompt (code persona : String) : String :=
  let pc := persona_lookup persona teacher_persona
  "\n" ++ pc.system_prompt
    ++ "\n\nPlease explain the following code:\n\n```\n" ++ code
    ++ "\n```\n\nExplain what this code does, how it works, and any important concepts involved.\n"

/-- Prompt built by `AIEngine.translate_code` (ai_engine.py lines 132-146);
default profile `teacher`. -/
def translate_prompt (code target_language persona : String) : String :=
  let pc := persona_lookup persona teacher_persona
  "\n" ++ pc.system_prompt
    ++ "\n\nPlease translate the following code to " ++ target_language
    ++ ":\n\n```\n" ++ code
    ++ "\n```\n\nProvide the translated code and explain any important differences or considerations.\n"

/-- Prompt built by `AIEngine.optimize_code` (ai_engine.py lines 150-164);
default profile `hacker` (the dictionary lookup falls back to
`self.personas['hacker']`). -/
def optimize_prompt (code persona : String) : String :=
  let pc := persona_lookup persona hacker_persona
  "\n" ++ pc.system_prompt
    ++ "\n\nPlease optimize the following code for better performance, readability, and maintainability:\n\n```\n"
    ++ code
    ++ "\n```\n\nProvide the optimized version and explain what improvements were made.\n"

/-- Prompt built by `AIEngine.chat` (ai_engine.py lines 168-178); default
profile `teacher`. -/
def chat_prompt (message persona : String) : String :=
  let pc := persona_lookup persona teacher_persona
  "\n" ++ pc.system_prompt
    ++ "\n\nUser message: " ++ message
    ++ "\n\nPlease respond helpfully as a programming assistant.\n"

/-- Prompt built by `AIEngine.fix_error` (ai_engine.py lines 182-202);
default profile `reviewer` (the dictionary lookup falls back to
`self.personas['reviewer']`). -/
def fix_error_prompt (code error_message persona : String) : String :=
  let pc := persona_lookup persona reviewer_persona
  "\n" ++ pc.system_prompt
    ++ "\n\nThe following code is producing an error:\n\nCode:\n```\n" ++ code
    ++ "\n```\n\nError message:\n```\n" ++ error_message
    ++ "\n```\n\nPlease analyze the error, explain what's wrong, and provide a corrected version of the code.\n"

/-- Canned guidance returned by `generate_fallback_response` when the prompt
mentions "explain" (ai_engine.py lines 355-362). -/
def fallback_explain : String :=
  "I'm sorry, but I don't have access to AI services right now. \n            \nTo enable AI features:\n1. For online mode: Set OPENAI_API_KEY or GROQ_API_KEY environment variable\n2. For offline mode: Place a GGML/GGUF model file in the models/ directory and ensure llama.cpp is available\n\nIn the meantime, I can help you with basic code operations through the file explorer and editor."

/-- Canned guidance for prompts mentioning "translate" (lines 364-371). -/
def fallback_translate : String :=
  "I can't translate code without AI services, but here are some general tips:\n\n- Python to JavaScript: Focus on syntax differences (indentation vs braces, def vs function)\n- JavaScript to Python: Watch out for variable scoping and type differences\n- Java to Python: Consider Python's dynamic typing and simpler syntax\n\nPlease set up AI services for full translation capabilities."

/-- Canned guidance for prompts mentioning "optimize" (lines 373-382). -/
def fallback_optimize : String :=
  "Without AI services, here are general optimization tips:\n\n- Remove unused variables and imports\n- Use appropriate data structures (lists vs sets vs dicts)\n- Avoid nested loops when possible\n- Cache expensive operations\n- Use list comprehensions for simple transformations\n\nSet up AI services for detailed, code-specific optimization suggestions."

/-- Generic canned guidance (lines 384-391). -/
def fallback_generic : String :=
  "I'm currently running in limited mode without AI services.\n\nTo enable full AI capabilities:\n1. Set OPENAI_API_KEY or GROQ_API_KEY environment variable for online mode\n2. Set up llama.cpp with a local model for offline mode\n\nI can still help you with file operations, editing, and basic code management."

/-- `AIEngine.generate_fallback_response` (ai_engine.py lines 353-391):
keyword-keyed selection of one of the four canned messages, checking
"explain", then "translate", then "optimize" against the lowercased
prompt. -/
def generate_fallback_response (prompt : String) : String :=
  if str_contains (py_lower prompt) "explain" then fallback_explain
  else if str_contains (py_lower prompt) "translate" then fallback_translate
  else if str_contains (py_lower prompt) "optimize" then fallback_optimize
  else fallback_generic

/-- Outcome of the llama.cpp subprocess run performed by
`generate_offline_response` (ai_engine.py lines 316-325): the process either
completed (with a return code, stdout and stderr), exceeded the 60-second
budget (`subprocess.TimeoutExpired`), or some other exception was raised
before the cleanup line (e.g. a missing executable). -/
inductive LocalRun where
  | completed (returncode : Int) (out err : String)
  | timedOut
  | raised (msg : String)
deriving Repr, DecidableEq

/-- Outcomes of the external effects a single request may perform: what
`call_openai_api` would produce (`Except.error` models a raised exception,
carrying `str(e)`), what `call_groq_api` would produce, and how the local
llama.cpp subprocess would behave.  The Python control flow around these
effects is translated verbatim. -/
structure World where
  openaiResult : Except String String
  groqResult : Except String String
  localRun : LocalRun
deriving Repr

/-- The availability state of `AIEngine` after initialization
(ai_engine.py lines 20-26, set by `initialize` / `setup_offline_mode`). -/
structure AIEngine where
  online_mode_available : Bool
  offline_mode_available : Bool
  openai_api_key : Option String
  groq_api_key : Option String
deriving Repr, DecidableEq

/-- Whether a line terminates the scan of the output-cleaning loop of
`generate_offline_response` (ai_engine.py line 337): it is non-blank and
does not start with the first 50 characters of the prompt. -/
def line_qualifies (pfx line : String) : Bool :=
  !(pyStrip line == "") && !(py_starts_with line pfx)

/-- Index of the first qualifying line, modelling the `for`/`break` loop of
ai_engine.py lines 335-339 (`none` when the loop never breaks, in which case
the Python variable `response_start` keeps its initial value 0). -/
def find_qualifying_index (pfx : String) : List String → Option Nat
  | [] => none
  | l :: ls =>
    if line_qualifies pfx l then some 0
    else (find_qualifying_index pfx ls).map (fun n => n + 1)

/-- Output cleaning of a successful local run (ai_engine.py lines 330-342):
strip stdout, split into lines, find where the response starts, rejoin and
strip; an empty result is replaced by a canned apology. -/
def clean_output (prompt out : String) : String :=
  let response := pyStrip out
  let lines := split_lines response
  let response_start := (find_qualifying_index (String.mk (prompt.data.take 50)) lines).getD 0
  let cleaned := pyStrip (String.intercalate "\n" (lines.drop response_start))
  if cleaned == "" then "I apologize, but I couldn't generate a proper response."
  else cleaned

/-- `AIEngine.generate_offline_response` (ai_engine.py lines 296-351).  The
first component is the returned text; the second records whether the
`os.unlink(prompt_file)` cleanup at line 328 executed.  When the subprocess
raises (timeout at line 347, or the generic handler at line 349 for an
exception raised before the cleanup line), control jumps past the unlink, so
the flag is `false` on those paths. -/
def generate_offline_response (w : World) (prompt : String) : String × Bool :=
  match w.localRun with
  | .completed rc out err =>
    if rc == 0 then (clean_output prompt out, true)
    else ("Sorry, there was an error processing your request: " ++ err, true)
  | .timedOut =>
    ("Sorry, the request timed out. Please try again with a shorter prompt.", false)
  | .raised msg =>
    ("Sorry, I encountered an error: " ++ msg, false)

/-- `AIEngine.generate_online_response` (ai_engine.py lines 221-237): try
the OpenAI slot if its key is truthy, else the Groq slot if truthy, else
raise; any failure falls through to the local backend when it is available
and otherwise to an error-bearing sorry-message. -/
def generate_online_response (e : AIEngine) (w : World) (prompt : String) : String :=
  let attempt : Except String String :=
    if py_truthy e.openai_api_key then w.openaiResult
    else if py_truthy e.groq_api_key then w.groqResult
    else .error "No online API keys available"
  match attempt with
  | .ok text => text
  | .error msg =>
    if e.offline_mode_available then (generate_offline_response w prompt).1
    else "Sorry, I couldn't process your request. Error: " ++ msg

/-- `AIEngine.generate_response` (ai_engine.py lines 206-219): the mode
router. -/
def generate_response (e : AIEngine) (w : World) (prompt mode : String) : String :=
  if mode == "online" && e.online_mode_available then
    generate_online_response e w prompt
  else if mode == "offline" && e.offline_mode_available then
    (generate_offline_response w prompt).1
  else if e.online_mode_available then
    generate_online_response e w prompt
  else if e.offline_mode_available then
    (generate_offline_response w prompt).1
  else
    generate_fallback_response prompt

/-- `AIEngine.explain_code` (ai_engine.py lines 114-130). -/
def explain_code (e : AIEngine) (w : World) (code persona mode : String) : String :=
  generate_response e w (explain_prompt code persona) mode

/-- `AIEngine.translate_code` (ai_engine.py lines 132-148). -/
def translate_code (e : AIEngine) (w : World) (code target_language persona mode : String) : String :=
  generate_response e w (translate_prompt code target_language persona) mode

/-- `AIEngine.optimize_code` (ai_engine.py lines 150-166). -/
def optimize_code (e : AIEngine) (w : World) (code persona mode : String) : String :=
  generate_response e w (optimize_prompt code persona) mode

/-- `AIEngine.chat` (ai_engine.py lines 168-180). -/
def chat (e : AIEngine) (w : World) (message persona mode : String) : String :=
  generate_response e w (chat_prompt message persona) mode

/-- `AIEngine.fix_error` (ai_engine.py lines 182-204). -/
def fix_error (e : AIEngine) (w : World) (code error_message persona mode : String) : String :=
  generate_response e w (fix_error_prompt code error_message persona) mode

/-- The `options` mapping of a request as read by `process_request`
(api.py lines 99 and 106): `options.get('targetLanguage', 'python')` and
`options.get('error', '')`. -/
structure RequestOptions where
  targetLanguage : Option String
  error : Option String
deriving Repr, DecidableEq

/-- The response dictionaries built by `api.py` (process_request lines
111-127 and handle_message lines 75-91), with `none` for an absent key.
The `timestamp` key, attached on every path, carries wall-clock time and is
not tracked. -/
structure ResponseEnvelope where
  success : Bool
  response : Option String
  error : Option String
  action : Option String
  persona : Option String
  mode : Option String
deriving Repr, DecidableEq

/-- `AICodeEditorBackend.process_request` (api.py lines 93-127).  `exc`
models an exception raised inside the `try` block (reachable in the source,
e.g. when the request's `options` value is not a mapping so `options.get`
raises); `some msg` carries `str(e)`.  The `except` branch at lines 120-127
builds an envelope holding only `success`, `error`, `action` and the
timestamp. -/
def process_request (e : AIEngine) (w : World) (action content persona mode : String)
    (options : RequestOptions) (exc : Option String) : ResponseEnvelope :=
  match exc with
  | some msg =>
    { success := false, response := none, error := some msg
      action := some action, persona := none, mode := none }
  | none =>
    let response :=
      if action == "explain" then explain_code e w content persona mode
      else if action == "translate" then
        translate_code e w content (options.targetLanguage.getD "python") persona mode
      else if action == "optimize" then optimize_code e w content persona mode
      else if action == "chat" then chat e w content persona mode
      else if action == "fix_error" then
        fix_error e w content (options.error.getD "") persona mode
      else
        "Unknown action: " ++ action
          ++ ". Available actions: explain, translate, optimize, chat, fix_error"
    { success := true, response := some response, error := none
      action := some action, persona := some persona, mode := some mode }

/-- An inbound transport message as seen by
`AICodeEditorBackend.handle_message` (api.py lines 56-91): either the JSON
failed to parse, or it parsed into request fields (with `exc` as in
`process_request`), or an exception escaped outside `process_request`
(e.g. while sending the reply). -/
inductive InboundMessage where
  | invalidJson
  | parsed (action content persona mode : String) (options : RequestOptions)
      (exc : Option String)
  | outerFailure (msg : String)

/-- Error envelope of the `json.JSONDecodeError` handler
(api.py lines 75-82). -/
def invalid_json_envelope : ResponseEnvelope :=
  { success := false, response := none, error := some "Invalid JSON format"
    action := none, persona := none, mode := none }

/-- Error envelope of the generic exception handler of `handle_message`
(api.py lines 84-91). -/
def handler_error_envelope (msg : String) : ResponseEnvelope :=
  { success := false, response := none, error := some msg
    action := none, persona := none, mode := none }

/-- `AICodeEditorBackend.handle_message` (api.py lines 56-91), restricted to
the envelope it sends back. -/
def handle_message (e : AIEngine) (w : World) (m : InboundMessage) : ResponseEnvelope :=
  match m with
  | .invalidJson => invalid_json_envelope
  | .parsed action content persona mode options exc =>
    process_request e w action content persona mode options exc
  | .outerFailure msg => handler_error_envelope msg

/-- Engine state with no backend configured: no API key in the environment
and no local model/executable found (the "limited mode" of api.py line 218). -/
def engine_none : AIEngine :=
  { online_mode_available := false, offline_mode_available := false
    openai_api_key := none, groq_api_key := none }

/-- Engine state after `initialize` with only `OPENAI_API_KEY` set. -/
def engine_openai_only : AIEngine :=
  { online_mode_available := true, offline_mode_available := false
    openai_api_key := some "sk-test", groq_api_key := none }

/-- Engine state after `initialize` with no API keys but a local model and
llama executable found by `setup_offline_mode`. -/
def engine_local_only : AIEngine :=
  { online_mode_available := false, offline_mode_available := true
    openai_api_key := none, groq_api_key := none }

/-- A world where every backend effect succeeds. -/
def world_ok : World :=
  { openaiResult := .ok "remote reply", groqResult := .ok "groq reply"
    localRun := .completed 0 "local reply" "" }

/-- A world where both remote slots raise and the local executable is
missing. -/
def world_remote_fail : World :=
  { openaiResult := .error "boom", groqResult := .error "gloom"
    localRun := .raised "no llama" }

/-- A world where the local subprocess exceeds its 60-second budget. -/
def world_timeout : World :=
  { openaiResult := .ok "remote reply", groqResult := .ok "groq reply"
    localRun := .timedOut }

/-- A request with an empty `options` mapping. -/
def options_empty : RequestOptions :=
  { targetLanguage := none, error := none }

/-- The fallback-selection property as the specification words it: the reply
is keyed by a case-insensitive substring match on the prompt, checking
"explain", then "translate", then "optimize", with a generic default. -/
def fallback_selection_ok (prompt r : String) : Prop :=
  (str_contains (py_lower prompt) "explain" = true → r = fallback_explain)
  ∧ (str_contains (py_lower prompt) "explain" = false →
      str_contains (py_lower prompt) "translate" = true → r = fallback_translate)
  ∧ (str_contains (py_lower prompt) "explain" = false →
      str_contains (py_lower prompt) "translate" = false →
      str_contains (py_lower prompt) "optimize" = true → r = fallback_optimize)
  ∧ (str_contains (py_lower prompt) "explain" = false →
      str_contains (py_lower prompt) "translate" = false →
      str_contains (py_lower prompt) "optimize" = false → r = fallback_generic)

/-- What a zero-backend request must produce for a recognized action whose
composed prompt is `prompt`: a success envelope echoing the request fields
whose response is the non-empty canned guidance selected from the prompt. -/
def canned_reply_ok (env : ResponseEnvelope) (prompt action persona mode : String) : Prop :=
  env = { success := true, response := some (generate_fallback_response prompt)
          error := none, action := some action, persona := some persona, mode := some mode }
  ∧ generate_fallback_response prompt ≠ ""
  ∧ generate_fallback_response prompt
      ∈ [fallback_explain, fallback_translate, fallback_optimize, fallback_generic]
  ∧ fallback_selection_ok prompt (generate_fallback_response prompt)

/-- The output cleaning as the specification words it: skip leading lines
that are blank or start with the first 50 characters of the prompt; the
response begins at the first line satisfying neither condition.  Kept
separate from `clean_output` (which is translated from the source) so the
two can be compared. -/
def clean_output_spec (prompt out : String) : String :=
  let pfx := String.mk (prompt.data.take 50)
  let lines := split_lines (pyStrip out)
  let tail := lines.dropWhile (fun l => !(line_qualifies pfx l))
  let cleaned := pyStrip (String.intercalate "\n" tail)
  if cleaned == "" then "I apologize, but I couldn't generate a proper response."
  else cleaned

set_option maxRecDepth 100000

/-- Routing helper: with no backend available the router reaches the canned
fallback for every requested mode. -/
theorem generate_response_no_backend (e : AIEngine) (w : World) (prompt mode : String)
    (hon : e.online_mode_available = false) (hoff : e.offline_mode_available = false) :
    generate_response e w prompt mode = generate_fallback_response prompt := by
  unfold generate_response
  rw [hon, hoff]
  simp

/-- Helper: the fallback reply is always one of the four canned messages. -/
theorem generate_fallback_mem (prompt : String) :
    generate_fallback_response prompt
      ∈ [fallback_explain, fallback_translate, fallback_optimize, fallback_generic] := by
  unfold generate_fallback_response
  repeat' split
  all_goals simp

/-- Helper: the fallback reply is never empty. -/
theorem generate_fallback_ne_empty (prompt : String) :
    generate_fallback_response prompt ≠ "" := by
  have h := generate_fallback_mem prompt
  simp only [List.mem_cons, List.not_mem_nil, or_false] at h
  rcases h with h | h | h | h <;> rw [h] <;> decide

/-- Helper: the fallback reply obeys the keyword priority order. -/
theorem generate_fallback_selection (prompt : String) :
    fallback_selection_ok prompt (generate_fallback_response prompt) := by
  unfold fallback_selection_ok generate_fallback_response
  refine ⟨?_, ?_, ?_, ?_⟩ <;> intros <;> simp_all

/-- Helper: a qualifying line makes the scan loop of
`generate_offline_response` find an index. -/
theorem find_qualifying_isSome (pfx : String) (ls : List String)
    (h : ∃ l ∈ ls, line_qualifies pfx l = true) :
    (find_qualifying_index pfx ls).isSome = true := by
  induction ls with
  | nil => simp at h
  | cons a as ih =>
    by_cases ha : line_qualifies pfx a = true
    · simp [find_qualifying_index, ha]
    · obtain ⟨l, hl, hq⟩ := h
      rcases List.mem_cons.mp hl with rfl | hl
      · exact absurd hq ha
      · have h2 := ih ⟨l, hl, hq⟩
        cases hfi : find_qualifying_index pfx as with
        | none => rw [hfi] at h2; simp at h2
        | some i => simp [find_qualifying_index, ha, hfi]

/-- Helper: when some line qualifies, dropping the loop's start index is the
same as skipping the leading non-qualifying lines. -/
theorem drop_start_eq_dropWhile (pfx : String) (ls : List String)
    (h : ∃ l ∈ ls, line_qualifies pfx l = true) :
    ls.drop ((find_qualifying_index pfx ls).getD 0)
      = ls.dropWhile (fun l => !(line_qualifies pfx l)) := by
  induction ls with
  | nil => simp at h
  | cons a as ih =>
    by_cases ha : line_qualifies pfx a = true
    · simp [find_qualifying_index, ha, List.dropWhile_cons]
    · have hb : line_qualifies pfx a = false := eq_false_of_ne_true ha
      obtain ⟨l, hl, hq⟩ := h
      rcases List.mem_cons.mp hl with rfl | hl
      · exact absurd hq ha
      · have hs := find_qualifying_isSome pfx as ⟨l, hl, hq⟩
        cases hfi : find_qualifying_index pfx as with
        | none => rw [hfi] at hs; simp at hs
        | some i =>
          have ih2 := ih ⟨l, hl, hq⟩
          rw [hfi] at ih2
          simp only [Option.getD_some] at ih2
          simp [find_qualifying_index, hb, hfi, List.dropWhile_cons, ih2]

/-- C1: mode resolution in `generate_response`: a requested mode whose
backend is available is attempted; otherwise the router falls through to
remote, then local, then the canned fallback text. -/
theorem generate_response_mode_resolution (e : AIEngine) (w : World) (prompt mode : String) :
    (mode = "online" → e.online_mode_available = true →
      generate_response e w prompt mode = generate_online_response e w prompt)
    ∧ (mode = "offline" → e.offline_mode_available = true →
      generate_response e w prompt mode = (generate_offline_response w prompt).1)
    ∧ (¬(mode = "online" ∧ e.online_mode_available = true) →
       ¬(mode = "offline" ∧ e.offline_mode_available = true) →
      generate_response e w prompt mode =
        (if e.online_mode_available then generate_online_response e w prompt
         else if e.offline_mode_available then (generate_offline_response w prompt).1
         else generate_fallback_response prompt)) := by
  refine ⟨?_, ?_, ?_⟩
  · intro hm hon
    subst hm
    unfold generate_response
    simp [hon]
  · intro hm hoff
    subst hm
    unfold generate_response
    simp [hoff]
  · intro h1 h2
    unfold generate_response
    by_cases hm1 : mode = "online"
    · have hon : e.online_mode_available = false := by
        cases hcase : e.online_mode_available
        · rfl
        · exact absurd ⟨hm1, hcase⟩ h1
      subst hm1
      simp [hon]
    · by_cases hm2 : mode = "offline"
      · have hoff : e.offline_mode_available = false := by
          cases hcase : e.offline_mode_available
          · rfl
          · exact absurd ⟨hm2, hcase⟩ h2
        subst hm2
        simp [hoff]
      · simp [hm1, hm2]

/-- C1 witness: concrete instances of all three resolution branches. -/
theorem generate_response_mode_resolution_witness :
    (generate_response engine_openai_only world_ok "p" "online"
      = generate_online_response engine_openai_only world_ok "p")
    ∧ (generate_response engine_local_only world_ok "p" "offline"
      = (generate_offline_response world_ok "p").1)
    ∧ (generate_response engine_none world_ok "p" "online"
      = generate_fallback_response "p") := by
  refine ⟨(generate_response_mode_resolution engine_openai_only world_ok "p" "online").1 rfl rfl,
      (generate_response_mode_resolution engine_local_only world_ok "p" "offline").2.1 rfl rfl, ?_⟩
  have h := (generate_response_mode_resolution engine_none world_ok "p" "online").2.2
    (by decide) (by decide)
  simpa [engine_none] using h

/-- C2 counterexample: a failed remote attempt with no local backend
returns the error-bearing sorry-message, not the canned fallback text of
`generate_fallback_response`. -/
theorem remote_failure_not_canned_fallback :
    generate_online_response engine_openai_only world_remote_fail "explain this"
      = "Sorry, I couldn't process your request. Error: " ++ "boom"
    ∧ generate_online_response engine_openai_only world_remote_fail "explain this"
      ≠ generate_fallback_response "explain this" := by
  exact ⟨rfl, by decide⟩

/-- C2 amended: on any failure of the attempted remote slot (including the
no-key raise), the other remote slot is not consulted; the local backend is
attempted when configured, and otherwise an error-bearing sorry-message is
returned (not the canned state-4 fallback text). -/
theorem remote_failure_fallback_policy (e : AIEngine) (w : World) (prompt msg : String) :
    (py_truthy e.openai_api_key = true → w.openaiResult = .error msg →
      generate_online_response e w prompt =
        (if e.offline_mode_available then (generate_offline_response w prompt).1
         else "Sorry, I couldn't process your request. Error: " ++ msg))
    ∧ (py_truthy e.openai_api_key = false → py_truthy e.groq_api_key = true →
       w.groqResult = .error msg →
      generate_online_response e w prompt =
        (if e.offline_mode_available then (generate_offline_response w prompt).1
         else "Sorry, I couldn't process your request. Error: " ++ msg))
    ∧ (py_truthy e.openai_api_key = false → py_truthy e.groq_api_key = false →
      generate_online_response e w prompt =
        (if e.offline_mode_available then (generate_offline_response w prompt).1
         else "Sorry, I couldn't process your request. Error: "
           ++ "No online API keys available")) := by
  refine ⟨?_, ?_, ?_⟩
  · intro hk hw
    unfold generate_online_response
    simp [hk, hw]
  · intro hk hg hw
    unfold generate_online_response
    simp [hk, hg, hw]
  · intro hk hg
    unfold generate_online_response
    simp [hk, hg]

/-- C2 witness: concrete instances of the three failure branches. -/
theorem remote_failure_fallback_policy_witness :
    py_truthy engine_openai_only.openai_api_key = true
    ∧ world_remote_fail.openaiResult = .error "boom"
    ∧ generate_online_response engine_openai_only world_remote_fail "p"
      = (if engine_openai_only.offline_mode_available
         then (generate_offline_response world_remote_fail "p").1
         else "Sorry, I couldn't process your request. Error: " ++ "boom") := by
  refine ⟨by decide, rfl, ?_⟩
  exact (remote_failure_fallback_policy engine_openai_only world_remote_fail "p" "boom").1
    (by decide) rfl

/-- C3: with zero configured backends every recognized action yields a
success envelope whose response is the non-empty canned guidance selected
from the composed prompt by the keyword priority order. -/
theorem zero_backend_requests_succeed (e : AIEngine) (w : World)
    (content persona mode : String) (options : RequestOptions)
    (hon : e.online_mode_available = false) (hoff : e.offline_mode_available = false) :
    canned_reply_ok (process_request e w "explain" content persona mode options none)
      (explain_prompt content persona) "explain" persona mode
    ∧ canned_reply_ok (process_request e w "translate" content persona mode options none)
      (translate_prompt content (options.targetLanguage.getD "python") persona)
      "translate" persona mode
    ∧ canned_reply_ok (process_request e w "optimize" content persona mode options none)
      (optimize_prompt content persona) "optimize" persona mode
    ∧ canned_reply_ok (process_request e w "chat" content persona mode options none)
      (chat_prompt content persona) "chat" persona mode
    ∧ canned_reply_ok (process_request e w "fix_error" content persona mode options none)
      (fix_error_prompt content (options.error.getD "") persona) "fix_error" persona mode := by
  refine ⟨⟨?_, generate_fallback_ne_empty _, generate_fallback_mem _, generate_fallback_selection _⟩,
      ⟨?_, generate_fallback_ne_empty _, generate_fallback_mem _, generate_fallback_selection _⟩,
      ⟨?_, generate_fallback_ne_empty _, generate_fallback_mem _, generate_fallback_selection _⟩,
      ⟨?_, generate_fallback_ne_empty _, generate_fallback_mem _, generate_fallback_selection _⟩,
      ⟨?_, generate_fallback_ne_empty _, generate_fallback_mem _, generate_fallback_selection _⟩⟩
  · rw [show process_request e w "explain" content persona mode options none
        = { success := true, response := some (explain_code e w content persona mode)
            error := none, action := some "explain", persona := some persona
            mode := some mode } from rfl,
      show explain_code e w content persona mode
        = generate_response e w (explain_prompt content persona) mode from rfl,
      generate_response_no_backend e w _ mode hon hoff]
  · rw [show process_request e w "translate" content persona mode options none
        = { success := true
            response := some (translate_code e w content (options.targetLanguage.getD "python")
              persona mode)
            error := none, action := some "translate", persona := some persona
            mode := some mode } from rfl,
      show translate_code e w content (options.targetLanguage.getD "python") persona mode
        = generate_response e w
            (translate_prompt content (options.targetLanguage.getD "python") persona) mode from rfl,
      generate_response_no_backend e w _ mode hon hoff]
  · rw [show process_request e w "optimize" content persona mode options none
        = { success := true, response := some (optimize_code e w content persona mode)
            error := none, action := some "optimize", persona := some persona
            mode := some mode } from rfl,
      show optimize_code e w content persona mode
        = generate_response e w (optimize_prompt content persona) mode from rfl,
      generate_response_no_backend e w _ mode hon hoff]
  · rw [show process_request e w "chat" content persona mode options none
        = { success := true, response := some (chat e w content persona mode)
            error := none, action := some "chat", persona := some persona
            mode := some mode } from rfl,
      show chat e w content persona mode
        = generate_response e w (chat_prompt content persona) mode from rfl,
      generate_response_no_backend e w _ mode hon hoff]
  · rw [show process_request e w "fix_error" content persona mode options none
        = { success := true
            response := some (fix_error e w content (options.error.getD "") persona mode)
            error := none, action := some "fix_error", persona := some persona
            mode := some mode } from rfl,
      show fix_error e w content (options.error.getD "") persona mode
        = generate_response e w (fix_error_prompt content (options.error.getD "") persona) mode
        from rfl,
      generate_response_no_backend e w _ mode hon hoff]

/-- C3 witness: the zero-backend engine at a concrete request. -/
theorem zero_backend_requests_succeed_witness :
    engine_none.online_mode_available = false
    ∧ engine_none.offline_mode_available = false
    ∧ canned_reply_ok
        (process_request engine_none world_ok "explain" "print(1)" "teacher" "online"
          options_empty none)
        (explain_prompt "print(1)" "teacher") "explain" "teacher" "online" :=
  ⟨rfl, rfl,
    (zero_backend_requests_succeed engine_none world_ok "print(1)" "teacher" "online"
      options_empty rfl rfl).1⟩

/-- C4: an unrecognized action yields a success envelope with the
informational unknown-action text, and the result is independent of the
engine availability, the world and the options (no backend is consulted and
no prompt is composed). -/
theorem unknown_action_informational (eA eB : AIEngine) (wA wB : World)
    (action content persona mode : String) (oA oB : RequestOptions)
    (h1 : action ≠ "explain") (h2 : action ≠ "translate") (h3 : action ≠ "optimize")
    (h4 : action ≠ "chat") (h5 : action ≠ "fix_error") :
    process_request eA wA action content persona mode oA none
      = { success := true
          response := some ("Unknown action: " ++ action
            ++ ". Available actions: explain, translate, optimize, chat, fix_error")
          error := none, action := some action, persona := some persona, mode := some mode }
    ∧ process_request eA wA action content persona mode oA none
      = process_request eB wB action content persona mode oB none := by
  have key : ∀ (e : AIEngine) (w : World) (o : RequestOptions),
      process_request e w action content persona mode o none
        = { success := true
            response := some ("Unknown action: " ++ action
              ++ ". Available actions: explain, translate, optimize, chat, fix_error")
            error := none, action := some action, persona := some persona
            mode := some mode } := by
    intro e w o
    simp [process_request, h1, h2, h3, h4, h5]
  exact ⟨key eA wA oA, (key eA wA oA).trans (key eB wB oB).symm⟩

/-- C4 witness: a concrete unrecognized action across two different
engine/world configurations. -/
theorem unknown_action_informational_witness :
    process_request engine_none world_ok "frobnicate" "x" "teacher" "online" options_empty none
      = { success := true
          response := some ("Unknown action: " ++ "frobnicate"
            ++ ". Available actions: explain, translate, optimize, chat, fix_error")
          error := none, action := some "frobnicate", persona := some "teacher"
          mode := some "online" }
    ∧ process_request engine_none world_ok "frobnicate" "x" "teacher" "online" options_empty none
      = process_request engine_openai_only world_remote_fail "frobnicate" "x" "teacher" "online"
          options_empty none :=
  unknown_action_informational engine_none engine_openai_only world_ok world_remote_fail
    "frobnicate" "x" "teacher" "online" options_empty options_empty
    (by decide) (by decide) (by decide) (by decide) (by decide)

/-- C5: on a local-backend timeout the returned envelope is success-true
with the timeout-specific message, but the scratch prompt file is NOT
deleted: the `TimeoutExpired` exception jumps from the subprocess call to
the handler at ai_engine.py line 347, skipping the `os.unlink` at line 328
(the second component of `generate_offline_response` records whether that
cleanup line executed). -/
theorem local_timeout_skips_scratch_cleanup :
    (generate_offline_response world_timeout "p").1
      = "Sorry, the request timed out. Please try again with a shorter prompt."
    ∧ (generate_offline_response world_timeout "p").2 = false
    ∧ (process_request engine_local_only world_timeout "chat" "hi" "teacher" "offline"
        options_empty none).success = true
    ∧ (process_request engine_local_only world_timeout "chat" "hi" "teacher" "offline"
        options_empty none).response
      = some "Sorry, the request timed out. Please try again with a shorter prompt." :=
  ⟨rfl, rfl, rfl, rfl⟩

/-- C6 counterexample: in `optimize_code` an unknown persona id resolves to
the `hacker` profile, not the `teacher` default the claim states. -/
theorem unknown_persona_optimize_uses_hacker :
    persona_lookup "stranger" hacker_persona = hacker_persona
    ∧ hacker_persona ≠ teacher_persona
    ∧ optimize_prompt "x" "stranger" = optimize_prompt "x" "hacker"
    ∧ optimize_prompt "x" "stranger" ≠ optimize_prompt "x" "teacher" :=
  ⟨rfl, by decide, rfl, by decide⟩

/-- C6 amended: an unknown persona id never raises and resolves to the
invoking method's own default profile: `teacher` for explain, translate and
chat, `hacker` for optimize, `reviewer` for fix_error. -/
theorem unknown_persona_per_action_default (pid code lang msg errMsg : String)
    (h1 : pid ≠ "teacher") (h2 : pid ≠ "hacker") (h3 : pid ≠ "reviewer") :
    explain_prompt code pid = explain_prompt code "teacher"
    ∧ translate_prompt code lang pid = translate_prompt code lang "teacher"
    ∧ chat_prompt msg pid = chat_prompt msg "teacher"
    ∧ optimize_prompt code pid = optimize_prompt code "hacker"
    ∧ fix_error_prompt code errMsg pid = fix_error_prompt code errMsg "reviewer" := by
  have hnone : personas pid = none := by simp [personas, h1, h2, h3]
  have ht : personas "teacher" = some teacher_persona := rfl
  have hh : personas "hacker" = some hacker_persona := rfl
  have hr : personas "reviewer" = some reviewer_persona := rfl
  refine ⟨?_, ?_, ?_, ?_, ?_⟩ <;>
    simp [explain_prompt, translate_prompt, chat_prompt, optimize_prompt, fix_error_prompt,
      persona_lookup, hnone, ht, hh, hr]

/-- C6 witness: a concrete unknown persona id across all five actions. -/
theorem unknown_persona_per_action_default_witness :
    explain_prompt "c" "nobody" = explain_prompt "c" "teacher"
    ∧ translate_prompt "c" "Go" "nobody" = translate_prompt "c" "Go" "teacher"
    ∧ chat_prompt "hi" "nobody" = chat_prompt "hi" "teacher"
    ∧ optimize_prompt "c" "nobody" = optimize_prompt "c" "hacker"
    ∧ fix_error_prompt "c" "err" "nobody" = fix_error_prompt "c" "err" "reviewer" :=
  unknown_persona_per_action_default "nobody" "c" "Go" "hi" "err"
    (by decide) (by decide) (by decide)

/-- C7 counterexample: the failure envelope of `process_request` echoes the
action but omits the persona and mode keys entirely. -/
theorem failure_envelope_omits_persona_mode :
    (process_request engine_none world_ok "chat" "hi" "teacher" "online" options_empty
      (some "boom")).success = false
    ∧ (process_request engine_none world_ok "chat" "hi" "teacher" "online" options_empty
        (some "boom")).action = some "chat"
    ∧ (process_request engine_none world_ok "chat" "hi" "teacher" "online" options_empty
        (some "boom")).persona ≠ some "teacher"
    ∧ (process_request engine_none world_ok "chat" "hi" "teacher" "online" options_empty
        (some "boom")).mode ≠ some "online" :=
  ⟨rfl, rfl, by decide, by decide⟩

/-- C7 amended: the action is echoed on every envelope; persona and mode are
echoed exactly on the success envelope and absent on the failure envelope. -/
theorem envelope_echo_fields (e : AIEngine) (w : World)
    (action content persona mode : String) (options : RequestOptions) (exc : Option String) :
    (process_request e w action content persona mode options exc).action = some action
    ∧ (process_request e w action content persona mode options exc).persona
      = (if (process_request e w action content persona mode options exc).success
         then some persona else none)
    ∧ (process_request e w action content persona mode options exc).mode
      = (if (process_request e w action content persona mode options exc).success
         then some mode else none) := by
  cases exc <;> simp [process_request]

/-- C8 counterexample: when every output line is blank or starts with the
prompt prefix, the code skips nothing and returns the whole output, while
the claimed procedure (skip all such leading lines) leaves nothing. -/
theorem clean_output_unskipped_counterexample :
    clean_output "p" "p one\np two" = "p one\np two"
    ∧ clean_output_spec "p" "p one\np two"
      = "I apologize, but I couldn't generate a proper response."
    ∧ clean_output "p" "p one\np two" ≠ clean_output_spec "p" "p one\np two"
    ∧ (split_lines (pyStrip "p one\np two")).all
        (fun l => pyStrip l == "" || py_starts_with l (String.mk ("p".data.take 50))) = true :=
  ⟨by decide, by decide, by decide, by decide⟩

/-- C8 amended: whenever at least one line of the stripped output is
non-blank and does not start with the 50-character prompt prefix, the
cleaned response is exactly the claimed skip: it begins at the first such
line (with the empty-result apology guard unreachable changes aside). -/
theorem clean_output_skips_to_first_qualifying_line (prompt out : String)
    (h : (split_lines (pyStrip out)).any
      (line_qualifies (String.mk (prompt.data.take 50))) = true) :
    clean_output prompt out = clean_output_spec prompt out := by
  obtain ⟨l, hl, hq⟩ := List.any_eq_true.mp h
  simp only [clean_output, clean_output_spec]
  rw [drop_start_eq_dropWhile _ _ ⟨l, hl, hq⟩]

/-- C8 witness: a concrete echoed-prompt output with a qualifying line. -/
theorem clean_output_skips_witness :
    (split_lines (pyStrip "p echo\nreal answer")).any
      (line_qualifies (String.mk ("p".data.take 50))) = true
    ∧ clean_output "p" "p echo\nreal answer" = clean_output_spec "p" "p echo\nreal answer" :=
  ⟨by decide, clean_output_skips_to_first_qualifying_line "p" "p echo\nreal answer" (by decide)⟩

/-- C9: every envelope sent back by `handle_message` (hence also every
envelope of `process_request`) carries exactly one of response/error,
matching its success flag. -/
theorem response_envelope_exclusive_fields (e : AIEngine) (w : World) (m : InboundMessage) :
    (handle_message e w m).response.isSome = (handle_message e w m).success
    ∧ (handle_message e w m).error.isSome = !(handle_message e w m).success := by
  cases m with
  | invalidJson => simp [handle_message, invalid_json_envelope]
  | parsed a c p md o exc => cases exc <;> simp [handle_message, process_request]
  | outerFailure msg => simp [handle_message, handler_error_envelope]

/-- C10: a mode string that is neither "online" nor "offline" is routed
exactly like the requested-mode-unavailable case: remote if available, else
local if available, else the canned fallback text. -/
theorem unrecognized_mode_falls_through (e : AIEngine) (w : World) (prompt mode : String)
    (h1 : mode ≠ "online") (h2 : mode ≠ "offline") :
    generate_response e w prompt mode =
      (if e.online_mode_available then generate_online_response e w prompt
       else if e.offline_mode_available then (generate_offline_response w prompt).1
       else generate_fallback_response prompt) := by
  unfold generate_response
  simp [h1, h2]

/-- C10 witness: the typo mode "onlin" on a remote-only engine attempts the
remote backend. -/
theorem unrecognized_mode_falls_through_witness :
    ("onlin" ≠ "online") ∧ ("onlin" ≠ "offline")
    ∧ generate_response engine_openai_only world_ok "p" "onlin"
      = generate_online_response engine_openai_only world_ok "p" := by
  refine ⟨by decide, by decide, ?_⟩
  have h := unrecognized_mode_falls_through engine_openai_only world_ok "p" "onlin"
    (by decide) (by decide)
  simpa [engine_openai_only] using h

end CodeEditor
